import Mathlib

/-!
Verification development for the csi-volume-recovery repository.

The Go sources are shallowly embedded as executable Lean definitions.
External collaborators (the cluster API, the CSI gRPC channel, the node
metrics source) are modelled as explicit environment records whose fields
hold the results the collaborator would return; the embedded functions
consume those results exactly the way the Go code consumes the returned
values. Fallible Go calls are modelled with `Except` / `Option`; a Go
nil-pointer dereference is modelled by a dedicated `crash` outcome.
-/

namespace CsiVolumeRecovery

/-! ## CSI node-plugin client (internal/csi/client.go) -/

/-- The CSI `NodeServiceCapability_RPC_Type` enum values. -/
inductive RpcType
  | UNKNOWN
  | STAGE_UNSTAGE_VOLUME
  | GET_VOLUME_STATS
  | EXPAND_VOLUME
  | VOLUME_CONDITION
  | SINGLE_NODE_MULTI_WRITER
  | VOLUME_MOUNT_GROUP
deriving DecidableEq

/-- One entry of `resp.GetCapabilities()`. The outer `Option` is the entry
pointer itself (`capability == nil`), the inner `Option` is the result of
the nil-safe `capability.GetRpc()` accessor; a present rpc carries the
payload of the nil-safe `GetType()` accessor. -/
abbrev NodeServiceCapability : Type := Option (Option RpcType)

/-- The loop predicate of `nodeSupportsCapability`: an entry counts exactly
when it is non-nil, its rpc is non-nil, and `GetRpc().GetType()` equals the
queried capability type (Go `==` on the enum). -/
def capabilityMatches (capabilityType : RpcType) : NodeServiceCapability → Bool
  | some (some ty) => decide (ty = capabilityType)
  | _ => false

/-- Embeds `(c *client) nodeSupportsCapability` (part_001 lines 97-114).
The argument `res` is the outcome of `c.nodeGetCapabilities(ctx)` (an error,
or the capability list of the response). The Go `for ... continue ... return
true ... return false` loop over the list is the `List.any` of
`capabilityMatches`. -/
def nodeSupportsCapability (res : Except String (List NodeServiceCapability))
    (capabilityType : RpcType) : Except String Bool :=
  match res with
  | .error e => .error e
  | .ok capabilities => .ok (capabilities.any (capabilityMatches capabilityType))

/-- Embeds `NodeSupportsVolumeCondition` (part_001 lines 116-118). -/
def NodeSupportsVolumeCondition (res : Except String (List NodeServiceCapability)) :
    Except String Bool :=
  nodeSupportsCapability res RpcType.VOLUME_CONDITION

/-- Embeds `NodeSupportsStageUnstage` (part_001 lines 120-122). -/
def NodeSupportsStageUnstage (res : Except String (List NodeServiceCapability)) :
    Except String Bool :=
  nodeSupportsCapability res RpcType.STAGE_UNSTAGE_VOLUME

/-- The protobuf `wrapperspb.BoolValue` message (field `Value`). -/
structure BoolValue where
  value : Bool
deriving DecidableEq

/-- The CSI `ProbeResponse`; `Ready` is a `*wrapperspb.BoolValue`, hence an
`Option`. -/
structure ProbeResponse where
  ready : Option BoolValue
deriving DecidableEq

/-- Outcome of a Go `(value, error)` call that may also crash with a runtime
nil-pointer dereference. -/
inductive GoOutcome (α : Type)
  | ok (a : α)
  | err (e : String)
  | crash
deriving DecidableEq

/-- Embeds `(c *client) IsHealthy` (part_001 lines 73-83). The argument is
the outcome of `c.IdentityClient.Probe`: a transport error, or a response
pointer that may be nil. The Go body reads `resp.Ready.Value` directly
(no nil-safe getter), so a non-nil response whose `Ready` field is unset
dereferences a nil pointer: that path is the `crash` outcome. -/
def IsHealthy (probeRes : Except String (Option ProbeResponse)) : GoOutcome Bool :=
  match probeRes with
  | .error e => .err e
  | .ok none => .err "response is nil"
  | .ok (some resp) =>
    match resp.ready with
    | none => .crash
    | some b => .ok b.value

/-! ## Owner-chain resolver (internal/kubernetes/client.go, findTopOwner) -/

/-- A `metav1.OwnerReference`, restricted to the two fields the source
reads (`Kind` and `Name`). -/
structure OwnerRef where
  name : String
  kind : String
deriving DecidableEq

/-- Errors surfaced by the embedded `findTopOwner`. `lookupFailed` carries
the error from `AppsV1().ReplicaSets(namespace).Get`, returned as-is by the
Go code. `depthExceeded` is a modelling artifact only: the Go recursion has
no depth bound, so the Lean embedding takes a fuel parameter and signals
with `depthExceeded` when fuel runs out; theorems about terminating chains
show this artifact does not fire once fuel is large enough. -/
inductive OwnerErr
  | lookupFailed (e : String)
  | depthExceeded
deriving DecidableEq

/-- Embeds `(c *client) findTopOwner` (client.go lines 119-150).
`lookup` stands for the cluster call fetching a ReplicaSet by name and
yielding its own `OwnerReferences`. Only the head of the reference list is
inspected, as in the source (`ownerRefs[0]`). -/
def findTopOwner (lookup : String → Except String (List OwnerRef)) (fuel : Nat)
    (ownerRefs : List OwnerRef) : Except OwnerErr (String × String) :=
  match ownerRefs with
  | [] => .ok ("", "")
  | ownerRef :: _ =>
    if ownerRef.kind = "ReplicaSet" then
      match lookup ownerRef.name, fuel with
      | .error e, _ => .error (.lookupFailed e)
      | .ok _, 0 => .error .depthExceeded
      | .ok rs, f + 1 => findTopOwner lookup f rs
    else if ownerRef.kind = "StatefulSet" then .ok (ownerRef.name, "StatefulSet")
    else if ownerRef.kind = "Deployment" then .ok (ownerRef.name, "Deployment")
    else if ownerRef.kind = "DaemonSet" then .ok (ownerRef.name, "DaemonSet")
    else .ok (ownerRef.name, ownerRef.kind)

/-- The hypothesis of the termination claim: the owner chain rooted at a
reference list is finite, i.e. the recursion of `findTopOwner` bottoms out.
A cycle-free chain over finitely many ReplicaSets satisfies this. -/
inductive FiniteOwnerChain (lookup : String → Except String (List OwnerRef)) :
    List OwnerRef → Prop
  | nil : FiniteOwnerChain lookup []
  | terminal (r : OwnerRef) (rest : List OwnerRef) :
      r.kind ≠ "ReplicaSet" → FiniteOwnerChain lookup (r :: rest)
  | rsFail (r : OwnerRef) (rest : List OwnerRef) (e : String) :
      r.kind = "ReplicaSet" → lookup r.name = .error e →
      FiniteOwnerChain lookup (r :: rest)
  | rsStep (r : OwnerRef) (rest rs : List OwnerRef) :
      r.kind = "ReplicaSet" → lookup r.name = .ok rs →
      FiniteOwnerChain lookup rs → FiniteOwnerChain lookup (r :: rest)

/-! ## Pod restart operator (internal/kubernetes/client.go, RestartPod) -/

/-- Environment of one `RestartPod` call: the result of the pod fetch
(only the pod's `OwnerReferences` are consumed), the ReplicaSet lookup used
by `findTopOwner`, and the result of the pod deletion call. -/
structure PodEnv where
  getPod : Except String (List OwnerRef)
  rsLookup : String → Except String (List OwnerRef)
  deletePod : Except String Unit

/-- Errors of the embedded `RestartPod`; each constructor is one of the
`fmt.Errorf` wrappings in the source, carrying the wrapped cause as-is. -/
inductive RestartErr
  | getPodFailed (e : String)
  | ownerLookupFailed (e : OwnerErr)
  | noOwnerFound
  | deleteFailed (e : String)
deriving DecidableEq

/-- Cluster mutations a `RestartPod` call can issue. -/
inductive PodAction
  | deletePod (ns podName : String)
deriving DecidableEq

/-- Embeds `(c *client) RestartPod` (client.go lines 97-116), returning the
trace of issued cluster mutations together with the Go result. `fuel` is
the modelling fuel threaded into `findTopOwner`. -/
def RestartPod (env : PodEnv) (fuel : Nat) (ns podName : String) :
    List PodAction × Except RestartErr Unit :=
  match env.getPod with
  | .error e => ([], .error (.getPodFailed e))
  | .ok refs =>
    match findTopOwner env.rsLookup fuel refs with
    | .error e => ([], .error (.ownerLookupFailed e))
    | .ok (ownerName, _) =>
      if ownerName = "" then ([], .error .noOwnerFound)
      else
        match env.deletePod with
        | .error e => ([.deletePod ns podName], .error (.deleteFailed e))
        | .ok _ => ([.deletePod ns podName], .ok ())

/-! ## Workload bounce operator (internal/kubernetes/client.go,
scaleDeployment / scaleStateFulSet) -/

/-- Errors observable from one bounce attempt. `conflictErr` is a cluster
API error whose status reason is a version conflict; `apiErr` is any other
API error; `quiesceErr` is an error coming out of `waitForReplicasToBeZero`
(poll error or timeout). The `wrap*` constructors are the three
`fmt.Errorf(..., err)` wrappings of the source, carrying the wrapped cause
(`nilErr` stands for the Go nil error, which the source does hand to the
wrap verb on one path). The numeric ids only serve to tell distinct error
instances apart. -/
inductive GoErr
  | conflictErr (id : Nat)
  | apiErr (id : Nat)
  | quiesceErr (id : Nat)
  | nilErr
  | wrapRevert (inner : GoErr)
  | wrapScaleDown (inner : GoErr)
  | wrapRestore (inner : GoErr)
deriving DecidableEq

/-- Embeds `apierrors.IsConflict` as used by `retry.RetryOnConflict`:
the reason check unwraps wrapped errors (`errors.As` in apimachinery's
`reasonAndCodeForError`), so a conflict wrapped by `fmt.Errorf` with the
`w` verb is still recognised as a conflict. -/
def isConflict : GoErr → Bool
  | .conflictErr _ => true
  | .wrapRevert e => isConflict e
  | .wrapScaleDown e => isConflict e
  | .wrapRestore e => isConflict e
  | _ => false

/-- Whether the error `target` is `e` itself or sits anywhere in the wrap
chain of `e` — the shallow counterpart of Go's `errors.Is(e, target)`. -/
def errContains (e target : GoErr) : Bool :=
  if e = target then true
  else
    match e with
    | .wrapRevert i => errContains i target
    | .wrapScaleDown i => errContains i target
    | .wrapRestore i => errContains i target
    | _ => false

/-- The desired replica count of the scaled controller as stored in the
cluster: `Spec.Replicas` is a `*int32`, hence `Option Int`. -/
structure WorkloadState where
  replicas : Option Int
deriving DecidableEq

/-- Outcomes the external cluster supplies to one execution of the retry
closure: the controller fetch, the scale-down `Update`, the
`waitForReplicasToBeZero` poll, the revert `Update` of the failed-quiesce
branch, and the final restore `Update`. `none` means the call succeeded. -/
structure AttemptEnv where
  getErr : Option GoErr
  scaleDownErr : Option GoErr
  waitErr : Option GoErr
  revertErr : Option GoErr
  restoreErr : Option GoErr

/-- Embeds one execution of the closure passed to `retry.RetryOnConflict`
in `scaleDeployment` (client.go lines 178-214); `scaleStateFulSet`
(lines 219-256) is line-for-line identical up to the resource kind in the
API calls and message strings. State is the controller's desired replica
count in the cluster; a failed `Update` leaves it unchanged. Mirrors the
source faithfully, including: `originalReplicas` is captured from the
object fetched by THIS attempt, and in the failed-quiesce branch the
variable `err` holding the quiesce error is overwritten by the revert
`Update` result before being wrapped, so a successful revert wraps a nil
error. -/
def bounceBody (count : Int) (env : AttemptEnv) (s : WorkloadState) :
    WorkloadState × Option GoErr :=
  match env.getErr with
  | some e => (s, some e)
  | none =>
    let originalReplicas : Option Int := if count ≠ 0 then some count else s.replicas
    if count = 0 then
      match env.scaleDownErr with
      | some e => (s, some e)
      | none =>
        let s1 : WorkloadState := { replicas := some count }
        match env.waitErr with
        | some _ =>
          match env.revertErr with
          | some e2 => (s1, some (.wrapRevert e2))
          | none => ({ replicas := originalReplicas }, some (.wrapScaleDown .nilErr))
        | none =>
          match env.restoreErr with
          | some e3 => (s1, some (.wrapRestore e3))
          | none => ({ replicas := originalReplicas }, none)
    else
      match env.restoreErr with
      | some e3 => (s, some (.wrapRestore e3))
      | none => ({ replicas := some count }, none)

/-- Embeds `retry.RetryOnConflict(retry.DefaultRetry, fn)`: run the closure
up to `steps` times, re-running only on a conflict error, returning the
first non-conflict outcome, or the last conflict error once the attempt
budget is exhausted. `envs i` supplies the external outcomes of attempt
`i`. -/
def retryOnConflict (count : Int) (envs : Nat → AttemptEnv) (i : Nat)
    (steps : Nat) (s : WorkloadState) : WorkloadState × Option GoErr :=
  match steps with
  | 0 => (s, none)
  | steps' + 1 =>
    match bounceBody count (envs i) s with
    | (s', none) => (s', none)
    | (s', some e) =>
      if isConflict e then
        match steps' with
        | 0 => (s', some e)
        | _ + 1 => retryOnConflict count envs (i + 1) steps' s'
      else (s', some e)

/-- Embeds `(c *client) scaleDeployment` (client.go lines 177-215):
the retry closure under `retry.DefaultRetry`, whose step budget is 5. -/
def scaleDeployment (count : Int) (envs : Nat → AttemptEnv) (s : WorkloadState) :
    WorkloadState × Option GoErr :=
  retryOnConflict count envs 0 5 s

/-- Embeds `(c *client) scaleStateFulSet` (client.go lines 218-257); its
body is identical to `scaleDeployment` up to resource kind and message
strings, so it is the same function of the modelled state. -/
def scaleStateFulSet (count : Int) (envs : Nat → AttemptEnv) (s : WorkloadState) :
    WorkloadState × Option GoErr :=
  retryOnConflict count envs 0 5 s

/-! ## Cluster-metadata volume driver resolver
(internal/volume/kubeclient.go, GetDriverName) -/

/-- A `v1.PersistentVolumeClaim`, restricted to the fields the resolver
reads: the `Annotations` map (a nil map is `none`) and `Spec.VolumeName`. -/
structure PersistentVolumeClaim where
  annots : Option (List (String × String))
  volumeName : String

/-- The `Spec.CSI` source of a PV; only the `Driver` field is read. -/
structure CSIPersistentVolumeSource where
  driver : String

/-- A `v1.PersistentVolume`, restricted to `Spec.CSI`. -/
structure PersistentVolume where
  csi : Option CSIPersistentVolumeSource

/-- The cluster reads the resolver performs: `GetPVC` keyed by claim name
and namespace, `GetPV` keyed by volume name. -/
structure ClusterEnv where
  getPVC : String → String → Except String PersistentVolumeClaim
  getPV : String → Except String PersistentVolume

/-- Errors of the embedded resolver: the wrapped PVC fetch failure, the
wrapped PV fetch failure, and the not-a-CSI-volume error. -/
inductive ResolveErr
  | pvcFetch (e : String)
  | pvFetch (pvName : String) (e : String)
  | notCSIVolume (pvName : String)
deriving DecidableEq

/-- Go map indexing: a missing key yields the zero value, the empty
string. -/
def annotLookup (m : List (String × String)) (key : String) : String :=
  match m.find? (fun kv => kv.fst = key) with
  | some kv => kv.snd
  | none => ""

/-- The deprecated beta storage-provisioner annotation key — the one the
source consults first. -/
def betaProvisionerKey : String := "volume.beta.kubernetes.io/storage-provisioner"

/-- The current-format storage-provisioner annotation key — consulted
second. -/
def gaProvisionerKey : String := "volume.kubernetes.io/storage-provisioner"

/-- Embeds `(k *kubeclient) GetDriverName` (kubeclient.go lines 24-48).
The two pod parameters are declared but discarded in the source
(`_, _ string`); they are kept here to state that the result does not
depend on them. The annotation block runs only when the map is non-nil,
checks the beta key then the current key, and returns the first non-empty
value; otherwise the bound PV is fetched and its CSI driver returned,
failing when the PV has no CSI source. -/
def GetDriverName (env : ClusterEnv) (podUUID podName pvcName nspace : String) :
    Except ResolveErr String :=
  match env.getPVC pvcName nspace with
  | .error e => .error (.pvcFetch e)
  | .ok pvc =>
    let fromAnnots : String :=
      match pvc.annots with
      | none => ""
      | some m =>
        let d := annotLookup m betaProvisionerKey
        if d ≠ "" then d else annotLookup m gaProvisionerKey
    if fromAnnots ≠ "" then .ok fromAnnots
    else
      match env.getPV pvc.volumeName with
      | .error e => .error (.pvFetch pvc.volumeName e)
      | .ok pv =>
        match pv.csi with
        | none => .error (.notCSIVolume pvc.volumeName)
        | some c => .ok c.driver

/-! ## Remediation loop body (cmd main, part_000 lines 94-142) -/

/-- What the external world supplies to one iteration of the inner
per-volume loop of `main`: the pod name from the metrics record, the
volume's claim reference (nil for ephemeral volumes), the result of
`client.GetDriverName`, the set of names keying the driver registry map,
and the results of the two capability queries on the matched driver. -/
structure VolumeEnv where
  podName : String
  pvcRef : Option (String × String)
  driverNameRes : Except String String
  registry : List String
  volCondRes : Except String Bool
  stageRes : Except String Bool

/-- The remediation calls the loop body can issue. -/
inductive RemedAction
  | restartPod (ns podName : String)
  | scaleOwner (ns podName : String) (replicas : Int)
deriving DecidableEq

/-- Embeds one iteration of the per-volume loop in `main` (part_000 lines
97-141): skip on nil claim ref, on driver-resolution error, on a driver
missing from the registry, on a capability-query error, and on a false
volume-condition result; otherwise restart the pod when stage/unstage is
unsupported and scale the owner to zero when it is supported. The returned
list is the trace of remediation calls issued (their own failures are only
logged, so they do not alter the trace). -/
def remediateVolume (env : VolumeEnv) : List RemedAction :=
  match env.pvcRef with
  | none => []
  | some (_, pvcNamespace) =>
    match env.driverNameRes with
    | .error _ => []
    | .ok driver =>
      if env.registry.contains driver then
        match env.volCondRes with
        | .error _ => []
        | .ok condOk =>
          if condOk = false then []
          else
            match env.stageRes with
            | .error _ => []
            | .ok stageOk =>
              if stageOk = false then [.restartPod pvcNamespace env.podName]
              else [.scaleOwner pvcNamespace env.podName 0]
      else []

/-! ## Concrete instances used by counterexamples and witnesses -/

/-- Attempt outcomes for the conflict-retry scenario: on the first attempt
every cluster call succeeds except the final restore `Update`, which hits a
version conflict (in a real cluster this is the expected outcome, since the
restore reuses the object fetched before the scale-down bumped its resource
version); the retried attempt's calls all succeed. -/
def retryEnvsC1 : Nat → AttemptEnv := fun i =>
  if i = 0 then
    { getErr := none, scaleDownErr := none, waitErr := none, revertErr := none,
      restoreErr := some (.conflictErr 0) }
  else
    { getErr := none, scaleDownErr := none, waitErr := none, revertErr := none,
      restoreErr := none }

/-- Attempt outcomes for the failed-quiesce scenario: the scale-down
persists, `waitForReplicasToBeZero` fails with a quiesce error, and the
revert `Update` succeeds. -/
def attemptEnvC4 : AttemptEnv :=
  { getErr := none, scaleDownErr := none, waitErr := some (.quiesceErr 7),
    revertErr := none, restoreErr := none }

/-- Loop environment where the driver is registered and both capability
queries succeed, reporting volume-condition unsupported and stage/unstage
unsupported. -/
def volumeEnvC2 : VolumeEnv :=
  { podName := "pod-1", pvcRef := some ("pvc-1", "ns-1"),
    driverNameRes := .ok "csi.example.com", registry := ["csi.example.com"],
    volCondRes := .ok false, stageRes := .ok false }

/-- Loop environment where the driver is registered, volume-condition is
supported and stage/unstage is not. -/
def volumeEnvC2W : VolumeEnv :=
  { podName := "pod-2", pvcRef := some ("pvc-2", "ns-2"),
    driverNameRes := .ok "csi.example.com", registry := ["csi.example.com"],
    volCondRes := .ok true, stageRes := .ok false }

/-- Cluster with a single PVC carrying BOTH storage-provisioner annotation
keys with different values. -/
def clusterEnvC3 : ClusterEnv :=
  { getPVC := fun pvcName nspace =>
      if pvcName = "pvc-1" ∧ nspace = "ns-1" then
        .ok { annots := some [(betaProvisionerKey, "legacy.csi.example.com"),
                              (gaProvisionerKey, "current.csi.example.com")],
              volumeName := "pv-1" }
      else .error "not found",
    getPV := fun _ => .error "unused" }

/-- Cluster with a single PVC carrying only the current-format
storage-provisioner annotation key. -/
def clusterEnvC3W : ClusterEnv :=
  { getPVC := fun pvcName nspace =>
      if pvcName = "pvc-2" ∧ nspace = "ns-2" then
        .ok { annots := some [(gaProvisionerKey, "current.csi.example.com")],
              volumeName := "pv-2" }
      else .error "not found",
    getPV := fun _ => .error "unused" }

/-- Pod environment whose pod has a Deployment as first owner reference and
whose deletion call succeeds. -/
def podEnvC8 : PodEnv :=
  { getPod := .ok [{ name := "app1", kind := "Deployment" }],
    rsLookup := fun _ => .error "unused", deletePod := .ok () }

/-! ## Theorems -/

/-- The loop predicate holds exactly on a well-formed entry carrying the
queried type. -/
theorem capabilityMatches_eq_true (t : RpcType) (c : NodeServiceCapability) :
    capabilityMatches t c = true ↔ c = some (some t) := by
  match c with
  | none => simp [capabilityMatches]
  | some none => simp [capabilityMatches]
  | some (some ty) => simp [capabilityMatches]

/-- Claim C5: for every capability list returned by the driver's capability
query, `NodeSupportsStageUnstage` (resp. `NodeSupportsVolumeCondition`)
yields true iff some entry is well-formed (non-nil with a non-nil rpc) and
carries the STAGE_UNSTAGE_VOLUME (resp. VOLUME_CONDITION) type; a
successful query never fails the predicate (malformed entries are skipped,
not fatal, and never produce true), while a query error is propagated. -/
theorem nodeSupportsCapability_true_iff (cs : List NodeServiceCapability) (e : String) :
    (NodeSupportsStageUnstage (.ok cs) = .ok true ↔
      ∃ c ∈ cs, c = some (some RpcType.STAGE_UNSTAGE_VOLUME)) ∧
    (NodeSupportsVolumeCondition (.ok cs) = .ok true ↔
      ∃ c ∈ cs, c = some (some RpcType.VOLUME_CONDITION)) ∧
    (∀ t : RpcType, ∃ b : Bool, nodeSupportsCapability (.ok cs) t = .ok b) ∧
    (∀ t : RpcType, nodeSupportsCapability (.error e) t = .error e) := by
  refine ⟨?_, ?_, fun t => ⟨cs.any (capabilityMatches t), rfl⟩, fun t => rfl⟩ <;>
    simp only [NodeSupportsStageUnstage, NodeSupportsVolumeCondition,
      nodeSupportsCapability, Except.ok.injEq, List.any_eq_true,
      capabilityMatches_eq_true]

/-- Claim C9 (code bug): `IsHealthy` reads `resp.Ready.Value` without a
nil check, so a successful probe whose response is non-nil but carries no
`Ready` field (an empty response — malformed by the spec's taxonomy)
crashes with a nil-pointer dereference instead of returning an error. The
remaining conjuncts record the behaviour on the other response shapes:
a well-formed non-ready response is `(false, nil)`, a ready response is
`(true, nil)`, and a nil response is an error. -/
theorem IsHealthy_nil_ready_crashes :
    IsHealthy (.ok (some { ready := none })) = .crash ∧
    IsHealthy (.ok (some { ready := some { value := false } })) = .ok false ∧
    IsHealthy (.ok (some { ready := some { value := true } })) = .ok true ∧
    IsHealthy (.ok none) = .err "response is nil" :=
  ⟨rfl, rfl, rfl, rfl⟩

/-- Claim C10: `GetDriverName` of the cluster-metadata resolver never reads
its two pod parameters — with the claim name, namespace and cluster state
fixed, any two choices of pod UUID and pod name give identical results. -/
theorem GetDriverName_ignores_pod_args (env : ClusterEnv)
    (u1 p1 u2 p2 pvcName nspace : String) :
    GetDriverName env u1 p1 pvcName nspace = GetDriverName env u2 p2 pvcName nspace :=
  rfl

/-- Unfolding helper: a head reference that is not a ReplicaSet resolves
terminally, independent of fuel and of the tail. -/
theorem findTopOwner_not_rs (lookup : String → Except String (List OwnerRef))
    (fuel : Nat) (r : OwnerRef) (rest : List OwnerRef) (h : r.kind ≠ "ReplicaSet") :
    findTopOwner lookup fuel (r :: rest) =
      if r.kind = "StatefulSet" then .ok (r.name, "StatefulSet")
      else if r.kind = "Deployment" then .ok (r.name, "Deployment")
      else if r.kind = "DaemonSet" then .ok (r.name, "DaemonSet")
      else .ok (r.name, r.kind) := by
  rw [findTopOwner.eq_def]
  simp [h]

/-- Unfolding helper: a failing ReplicaSet lookup is propagated at any
fuel. -/
theorem findTopOwner_rs_err (lookup : String → Except String (List OwnerRef))
    (fuel : Nat) (r : OwnerRef) (rest : List OwnerRef) (e : String)
    (hk : r.kind = "ReplicaSet") (he : lookup r.name = .error e) :
    findTopOwner lookup fuel (r :: rest) = .error (.lookupFailed e) := by
  rw [findTopOwner.eq_def]
  simp [hk, he]

/-- Unfolding helper: a successful ReplicaSet lookup recurses into the
fetched owner references. -/
theorem findTopOwner_rs_ok (lookup : String → Except String (List OwnerRef))
    (fuel : Nat) (r : OwnerRef) (rest rs : List OwnerRef)
    (hk : r.kind = "ReplicaSet") (hok : lookup r.name = .ok rs) :
    findTopOwner lookup (fuel + 1) (r :: rest) = findTopOwner lookup fuel rs := by
  rw [findTopOwner.eq_def]
  simp [hk, hok]

/-- Claim C6: the owner-chain resolver's policy. An empty reference list
returns the empty pair; only the first reference is considered (the tail
never influences the result); a ReplicaSet head triggers a lookup whose
failure is propagated and whose success recurses into the fetched owner
references; Deployment, StatefulSet and DaemonSet heads are terminal and
returned with their kind; any other head is terminal with its literal
kind. -/
theorem findTopOwner_policy (lookup : String → Except String (List OwnerRef))
    (fuel : Nat) (r : OwnerRef) (rest rest' : List OwnerRef) :
    findTopOwner lookup fuel [] = .ok ("", "") ∧
    findTopOwner lookup fuel (r :: rest) = findTopOwner lookup fuel (r :: rest') ∧
    (r.kind = "ReplicaSet" → ∀ e, lookup r.name = .error e →
      findTopOwner lookup fuel (r :: rest) = .error (.lookupFailed e)) ∧
    (r.kind = "ReplicaSet" → ∀ rs, lookup r.name = .ok rs →
      findTopOwner lookup (fuel + 1) (r :: rest) = findTopOwner lookup fuel rs) ∧
    (r.kind = "Deployment" → findTopOwner lookup fuel (r :: rest) = .ok (r.name, "Deployment")) ∧
    (r.kind = "StatefulSet" → findTopOwner lookup fuel (r :: rest) = .ok (r.name, "StatefulSet")) ∧
    (r.kind = "DaemonSet" → findTopOwner lookup fuel (r :: rest) = .ok (r.name, "DaemonSet")) ∧
    (r.kind ≠ "ReplicaSet" → r.kind ≠ "Deployment" → r.kind ≠ "StatefulSet" →
      r.kind ≠ "DaemonSet" → findTopOwner lookup fuel (r :: rest) = .ok (r.name, r.kind)) := by
  refine ⟨by rw [findTopOwner.eq_def], ?_, ?_, ?_, ?_, ?_, ?_, ?_⟩
  · rw [findTopOwner.eq_def]
    conv_rhs => rw [findTopOwner.eq_def]
  · intro hk e he
    exact findTopOwner_rs_err lookup fuel r rest e hk he
  · intro hk rs hok
    exact findTopOwner_rs_ok lookup fuel r rest rs hk hok
  · intro hk
    rw [findTopOwner_not_rs lookup fuel r rest (by simp [hk]), hk]
    simp
  · intro hk
    rw [findTopOwner_not_rs lookup fuel r rest (by simp [hk]), hk]
    simp
  · intro hk
    rw [findTopOwner_not_rs lookup fuel r rest (by simp [hk]), hk]
    simp
  · intro h1 h2 h3 h4
    rw [findTopOwner_not_rs lookup fuel r rest h1, if_neg h3, if_neg h2, if_neg h4]

/-- Witness for C6: a pod directly owned by a Deployment resolves to that
Deployment. -/
theorem findTopOwner_policy_witness :
    findTopOwner (fun _ => .error "boom") 0 [{ name := "app1", kind := "Deployment" }] =
      .ok ("app1", "Deployment") :=
  (findTopOwner_policy (fun _ => .error "boom") 0 { name := "app1", kind := "Deployment" }
    [] []).2.2.2.2.1 rfl

/-- Claim C7: on every finite (cycle-free) owner chain the resolver
terminates: there is a fuel threshold past which the result is stable, the
fuel-exhaustion artifact never fires, and the result is either a propagated
lookup failure or an owner whose kind is never ReplicaSet (the no-owner
result being the empty pair); a chain of length 0 yields the no-owner
result at every fuel. -/
theorem findTopOwner_terminates (lookup : String → Except String (List OwnerRef))
    (refs : List OwnerRef) (h : FiniteOwnerChain lookup refs) :
    (∀ fuel, findTopOwner lookup fuel [] = .ok ("", "")) ∧
    ∃ N res, (∀ fuel, N ≤ fuel → findTopOwner lookup fuel refs = res) ∧
      res ≠ .error .depthExceeded ∧
      ((∃ e, res = .error (.lookupFailed e)) ∨ res = .ok ("", "") ∨
        ∃ name kind, res = .ok (name, kind) ∧ kind ≠ "ReplicaSet") := by
  refine ⟨fun fuel => by rw [findTopOwner.eq_def], ?_⟩
  induction h with
  | nil =>
    exact ⟨0, .ok ("", ""), fun fuel _ => by rw [findTopOwner.eq_def], by simp,
      Or.inr (Or.inl rfl)⟩
  | terminal r rest hne =>
    refine ⟨0, findTopOwner lookup 0 (r :: rest), fun fuel _ => ?_, ?_, ?_⟩
    · rw [findTopOwner_not_rs lookup fuel r rest hne,
        findTopOwner_not_rs lookup 0 r rest hne]
    · rw [findTopOwner_not_rs lookup 0 r rest hne]
      split_ifs <;> simp
    · rw [findTopOwner_not_rs lookup 0 r rest hne]
      refine Or.inr (Or.inr ?_)
      split_ifs with h1 h2 h3
      · exact ⟨r.name, "StatefulSet", rfl, by simp⟩
      · exact ⟨r.name, "Deployment", rfl, by simp⟩
      · exact ⟨r.name, "DaemonSet", rfl, by simp⟩
      · exact ⟨r.name, r.kind, rfl, hne⟩
  | rsFail r rest e hk he =>
    exact ⟨0, .error (.lookupFailed e),
      fun fuel _ => findTopOwner_rs_err lookup fuel r rest e hk he, by simp,
      Or.inl ⟨e, rfl⟩⟩
  | rsStep r rest rs hk hok hchain ih =>
    obtain ⟨N, res, hstab, hne', hcase⟩ := ih
    refine ⟨N + 1, res, ?_, hne', hcase⟩
    intro fuel hf
    obtain ⟨f, rfl⟩ : ∃ f, fuel = f + 1 := ⟨fuel - 1, by omega⟩
    rw [findTopOwner_rs_ok lookup f r rest rs hk hok]
    exact hstab f (by omega)

/-- Witness for C7: a one-step chain — a ReplicaSet whose own reference
list is empty — terminates with the no-owner result. -/
theorem findTopOwner_terminates_witness :
    (∀ fuel, findTopOwner (fun _ => .ok ([] : List OwnerRef)) fuel [] = .ok ("", "")) ∧
    ∃ N res, (∀ fuel, N ≤ fuel →
        findTopOwner (fun _ => .ok ([] : List OwnerRef)) fuel
          [{ name := "rs-1", kind := "ReplicaSet" }] = res) ∧
      res ≠ .error .depthExceeded ∧
      ((∃ e, res = .error (.lookupFailed e)) ∨ res = .ok ("", "") ∨
        ∃ name kind, res = .ok (name, kind) ∧ kind ≠ "ReplicaSet") :=
  findTopOwner_terminates (fun _ => .ok ([] : List OwnerRef))
    [{ name := "rs-1", kind := "ReplicaSet" }]
    (FiniteOwnerChain.rsStep { name := "rs-1", kind := "ReplicaSet" } [] [] rfl rfl
      FiniteOwnerChain.nil)

/-- Claim C8: `RestartPod` fails without issuing any deletion when the pod
fetch fails, when the owner-chain resolution fails, and — with the
no-owner-found error — when the chain yields an empty owner name; when the
chain yields a non-empty owner the pod deletion is issued exactly once,
a deletion failure propagates (wrapped with pod context, the cause kept
as-is inside), and a successful deletion ends the call with no
wait-for-recreation step (the trace holds nothing but the single delete). -/
theorem RestartPod_policy (env : PodEnv) (fuel : Nat) (ns podName : String) :
    (∀ e, env.getPod = .error e →
      RestartPod env fuel ns podName = ([], .error (.getPodFailed e))) ∧
    (∀ refs e, env.getPod = .ok refs →
      findTopOwner env.rsLookup fuel refs = .error e →
      RestartPod env fuel ns podName = ([], .error (.ownerLookupFailed e))) ∧
    (∀ refs k, env.getPod = .ok refs →
      findTopOwner env.rsLookup fuel refs = .ok ("", k) →
      RestartPod env fuel ns podName = ([], .error .noOwnerFound)) ∧
    (∀ refs name k, env.getPod = .ok refs →
      findTopOwner env.rsLookup fuel refs = .ok (name, k) → name ≠ "" →
      (∀ e, env.deletePod = .error e →
        RestartPod env fuel ns podName =
          ([.deletePod ns podName], .error (.deleteFailed e))) ∧
      (env.deletePod = .ok () →
        RestartPod env fuel ns podName = ([.deletePod ns podName], .ok ()))) := by
  refine ⟨?_, ?_, ?_, ?_⟩
  · intro e hget
    simp [RestartPod, hget]
  · intro refs e hget hfind
    simp [RestartPod, hget, hfind]
  · intro refs k hget hfind
    simp [RestartPod, hget, hfind]
  · intro refs name k hget hfind hname
    refine ⟨?_, ?_⟩
    · intro e hdel
      simp [RestartPod, hget, hfind, hname, hdel]
    · intro hdel
      simp [RestartPod, hget, hfind, hname, hdel]

/-- Witness for C8: a pod owned by a Deployment is deleted exactly once
and the call succeeds. -/
theorem RestartPod_policy_witness :
    RestartPod podEnvC8 0 "ns-1" "pod-1" = ([.deletePod "ns-1" "pod-1"], .ok ()) :=
  ((RestartPod_policy podEnvC8 0 "ns-1" "pod-1").2.2.2
    [{ name := "app1", kind := "Deployment" }] "app1" "Deployment" rfl
    (by rw [findTopOwner.eq_def]; simp) (by simp)).2 rfl

/-- Claim C1 (code bug): a bounce run that hits a version conflict on the
restore update after the scale-down has already persisted is re-executed by
the conflict-retry policy; the re-executed closure re-captures
`originalReplicas` from the refetched object — now the bounced value 0 —
and the run terminates successfully with the desired replica count left
permanently at 0, not at the pre-bounce count 3 and with no error. -/
theorem scaleDeployment_retry_loses_original :
    scaleDeployment 0 retryEnvsC1 { replicas := some 3 } =
      ({ replicas := some 0 }, none) ∧
    ({ replicas := some 0 } : WorkloadState) ≠ { replicas := some 3 } :=
  ⟨rfl, by decide⟩

/-- Claim C4 (code bug): when `waitForReplicasToBeZero` fails and the
revert update succeeds, the revert is indeed attempted and restores the
original count, but the surfaced error wraps the nil result of the
successful revert update — the local `err` holding the quiesce error was
overwritten — so the quiesce error is absent from the entire wrap chain of
the result. -/
theorem scaleDeployment_quiesce_error_lost :
    scaleDeployment 0 (fun _ => attemptEnvC4) { replicas := some 3 } =
      ({ replicas := some 3 }, some (.wrapScaleDown .nilErr)) ∧
    errContains (.wrapScaleDown .nilErr) (.quiesceErr 7) = false ∧
    attemptEnvC4.waitErr = some (.quiesceErr 7) :=
  ⟨rfl, by decide, rfl⟩

/-- Counterexample to claim C2 as stated: with both capability queries
returning without error — volume-condition false, stage/unstage false — the
loop issues NO remediation at all (in particular no pod restart), because a
false volume-condition result already skips the volume. -/
theorem remediateVolume_false_volume_condition_skips :
    volumeEnvC2.volCondRes = .ok false ∧ volumeEnvC2.stageRes = .ok false ∧
    remediateVolume volumeEnvC2 = [] ∧
    RemedAction.restartPod "ns-1" "pod-1" ∉ remediateVolume volumeEnvC2 :=
  ⟨rfl, rfl, rfl, by decide⟩

/-- Claim C2 as amended: for a volume with a claim reference whose driver
resolves and is found in the registry, a volume-condition query error, a
FALSE volume-condition result, or a stage/unstage query error each skip the
volume with no remediation; when volume-condition is supported, an
unsupported stage/unstage triggers exactly one pod restart and a supported
stage/unstage triggers exactly one owner scale to zero replicas. -/
theorem remediateVolume_dispatch (env : VolumeEnv) (pvcName pvcNs driver : String)
    (href : env.pvcRef = some (pvcName, pvcNs))
    (hdrv : env.driverNameRes = .ok driver)
    (hreg : env.registry.contains driver = true) :
    (∀ e, env.volCondRes = .error e → remediateVolume env = []) ∧
    (env.volCondRes = .ok false → remediateVolume env = []) ∧
    (env.volCondRes = .ok true → ∀ e, env.stageRes = .error e →
      remediateVolume env = []) ∧
    (env.volCondRes = .ok true → env.stageRes = .ok false →
      remediateVolume env = [.restartPod pvcNs env.podName]) ∧
    (env.volCondRes = .ok true → env.stageRes = .ok true →
      remediateVolume env = [.scaleOwner pvcNs env.podName 0]) := by
  refine ⟨?_, ?_, ?_, ?_, ?_⟩
  · intro e hvc
    simp [remediateVolume, href, hdrv, hreg, hvc]
  · intro hvc
    simp [remediateVolume, href, hdrv, hreg, hvc]
  · intro hvc e hst
    simp [remediateVolume, href, hdrv, hreg, hvc, hst]
  · intro hvc hst
    simp [remediateVolume, href, hdrv, hreg, hvc, hst]
    simpa using hreg
  · intro hvc hst
    simp [remediateVolume, href, hdrv, hreg, hvc, hst]
    simpa using hreg

/-- Witness for the amended C2: volume-condition supported, stage/unstage
unsupported — the loop issues exactly one pod restart. -/
theorem remediateVolume_dispatch_witness :
    remediateVolume volumeEnvC2W = [.restartPod "ns-2" "pod-2"] :=
  (remediateVolume_dispatch volumeEnvC2W "pvc-2" "ns-2" "csi.example.com" rfl rfl
    (by decide)).2.2.2.1 rfl rfl

/-- Counterexample to claim C3 as stated: a PVC carrying BOTH
storage-provisioner annotation keys resolves to the DEPRECATED beta key's
value, not the current-format key's value — the source checks the beta key
first, the opposite of the claimed order. -/
theorem GetDriverName_checks_beta_key_first :
    GetDriverName clusterEnvC3 "uid-1" "pod-1" "pvc-1" "ns-1" =
      .ok "legacy.csi.example.com" ∧
    ("legacy.csi.example.com" : String) ≠ "current.csi.example.com" :=
  ⟨rfl, by decide⟩

/-- Claim C3 as amended: the resolver checks the deprecated beta
storage-provisioner annotation key FIRST and the current-format key second,
returning the first non-empty value without consulting the PV (the result
is invariant under any replacement of the PV fetch); when the annotation
map is nil or both keys are empty it fetches the bound PV and returns its
CSI driver field, failing with the not-a-CSI-volume error when the PV has
no CSI source. -/
theorem GetDriverName_resolution (env : ClusterEnv) (u p pvcName nspace : String)
    (pvc : PersistentVolumeClaim) (m : List (String × String))
    (hpvc : env.getPVC pvcName nspace = .ok pvc) :
    (pvc.annots = some m → annotLookup m betaProvisionerKey ≠ "" →
      ∀ pvF, GetDriverName { env with getPV := pvF } u p pvcName nspace =
        .ok (annotLookup m betaProvisionerKey)) ∧
    (pvc.annots = some m → annotLookup m betaProvisionerKey = "" →
      annotLookup m gaProvisionerKey ≠ "" →
      ∀ pvF, GetDriverName { env with getPV := pvF } u p pvcName nspace =
        .ok (annotLookup m gaProvisionerKey)) ∧
    ((pvc.annots = none ∨ (pvc.annots = some m ∧
        annotLookup m betaProvisionerKey = "" ∧
        annotLookup m gaProvisionerKey = "")) →
      (∀ e, env.getPV pvc.volumeName = .error e →
        GetDriverName env u p pvcName nspace =
          .error (.pvFetch pvc.volumeName e)) ∧
      (∀ pv, env.getPV pvc.volumeName = .ok pv → pv.csi = none →
        GetDriverName env u p pvcName nspace =
          .error (.notCSIVolume pvc.volumeName)) ∧
      (∀ pv c, env.getPV pvc.volumeName = .ok pv → pv.csi = some c →
        GetDriverName env u p pvcName nspace = .ok c.driver)) := by
  refine ⟨?_, ?_, ?_⟩
  · intro hann hbeta pvF
    simp [GetDriverName, hpvc, hann, hbeta]
  · intro hann hbeta hga pvF
    simp [GetDriverName, hpvc, hann, hbeta, hga]
  · intro hcase
    refine ⟨?_, ?_, ?_⟩
    · intro e hpv
      rcases hcase with hnone | ⟨hann, hbeta, hga⟩
      · simp [GetDriverName, hpvc, hnone, hpv]
      · simp [GetDriverName, hpvc, hann, hbeta, hga, hpv]
    · intro pv hpv hcsi
      rcases hcase with hnone | ⟨hann, hbeta, hga⟩
      · simp [GetDriverName, hpvc, hnone, hpv, hcsi]
      · simp [GetDriverName, hpvc, hann, hbeta, hga, hpv, hcsi]
    · intro pv c hpv hcsi
      rcases hcase with hnone | ⟨hann, hbeta, hga⟩
      · simp [GetDriverName, hpvc, hnone, hpv, hcsi]
      · simp [GetDriverName, hpvc, hann, hbeta, hga, hpv, hcsi]

/-- Witness for the amended C3: a PVC carrying only the current-format
annotation key resolves to that key's value. -/
theorem GetDriverName_resolution_witness :
    GetDriverName clusterEnvC3W "uid-2" "pod-2" "pvc-2" "ns-2" =
      .ok "current.csi.example.com" :=
  (GetDriverName_resolution clusterEnvC3W "uid-2" "pod-2" "pvc-2" "ns-2"
    { annots := some [(gaProvisionerKey, "current.csi.example.com")],
      volumeName := "pv-2" }
    [(gaProvisionerKey, "current.csi.example.com")] rfl).2.1 rfl
    (by decide) (by decide) clusterEnvC3W.getPV

end CsiVolumeRecovery
